import Mathlib

/-!
Verification development for the MockMate exam-practice client
(session & route-access control mechanism and page-level operations).

Each definition is a shallow embedding of the corresponding TypeScript
source; JavaScript-specific semantics (truthiness, `||`, template
literals) are modelled explicitly.
-/

namespace IeltsClient

/-- A user record as held in the session context
(`AuthContext.tsx`, interface `User`: fields `id`, `email`, `username`). -/
structure User where
  id : String
  email : String
  username : String
deriving Repr, DecidableEq

/-- JavaScript truthiness of a nullable string: `null` and the empty
string are both falsy. -/
def strTruthy : Option String → Bool
  | none => false
  | some s => s ≠ ""

/-- JavaScript `a || b` on nullable strings: yields `a` when `a` is
truthy, otherwise `b`. -/
def jsOrOpt (a b : Option String) : Option String :=
  if strTruthy a then a else b

/-- JavaScript `m || d` where `m` is a nullable string and `d` a string
default: `null`, `undefined` and `""` all fall through to `d`. -/
def jsOrStr (m : Option String) (d : String) : String :=
  match m with
  | none => d
  | some s => if s = "" then d else s

/-- Interpolation of a nullable string into a template literal:
JavaScript renders `null` as the text "null". -/
def jsInterp : Option String → String
  | none => "null"
  | some s => s

/-- Whether `pat` occurs as a contiguous sublist of the second list. -/
def hasSubList (pat : List Char) : List Char → Bool
  | [] => pat.isEmpty
  | c :: rest => pat.isPrefixOf (c :: rest) || hasSubList pat rest

/-- JavaScript `s.includes(pat)`: `pat` occurs as a contiguous
substring of `s`. -/
def jsIncludes (s pat : String) : Bool :=
  hasSubList pat.data s.data

/-! ### Cookie store

The cookie utility (`@/utils/cookies`) is not among the provided
sources; the store below follows the spec's contract for it. -/

/-- A cookie store entry: name, value, and the ttl in days it was set
with. -/
abbrev CookieStore := List (String × String × Nat)

/-- Modelled from the spec: `utils/cookies` is missing from the
sources; per the spec the cookie utility offers
`get(name) -> string|null`, modelled as lookup of the first entry with
the given name. -/
def getCookieEntry (name : String) (c : CookieStore) : Option (String × Nat) :=
  (c.find? (fun e => e.1 == name)).map (·.2)

/-- Modelled from the spec: `get(name) -> string|null`, the stored
value of the named cookie. -/
def getCookie (name : String) (c : CookieStore) : Option String :=
  (getCookieEntry name c).map (·.1)

/-- Modelled from the spec: `set(name, value, ttlDays)`; setting a
cookie overwrites any previous cookie of the same name. -/
def setCookie (name value : String) (days : Nat) (c : CookieStore) : CookieStore :=
  (name, value, days) :: c.filter (fun e => e.1 != name)

/-- Modelled from the spec: `delete(name)` removes the named cookie. -/
def deleteCookie (name : String) (c : CookieStore) : CookieStore :=
  c.filter (fun e => e.1 != name)

/-! ### Route guard (`src/components/RouteGuard.tsx`) -/

/-- Public routes that do not require authentication
(`RouteGuard.tsx` line 8). -/
def publicRoutes : List String := ["/login", "/register", "/", "/landingpage"]

/-- Outcome of one render of `RouteGuard`: the navigations pushed by
its effect, and whether the children are rendered. -/
structure GuardDecision where
  redirects : List String
  rendersChildren : Bool
deriving Repr, DecidableEq

/-- `RouteGuard` (lines 20-57): the effect runs only once mounted and
pushes `/login` for an unauthenticated visit to a non-public path and
`/deshboard` for an authenticated visit to `/login` or `/register`;
rendering returns `null` before mount and in exactly those two
redirect situations, and the children otherwise. -/
def routeGuard (mounted isAuthenticated : Bool) (pathname : String) : GuardDecision :=
  let isPublicRoute := publicRoutes.contains pathname
  let isAuthRoute := pathname == "/login" || pathname == "/register"
  let redirects : List String :=
    if !mounted then []
    else
      (if !isAuthenticated && !isPublicRoute then ["/login"] else []) ++
      (if isAuthenticated && isAuthRoute then ["/deshboard"] else [])
  let renders : Bool :=
    if !mounted then false
    else if !isAuthenticated && !isPublicRoute then false
    else if isAuthenticated && isAuthRoute then false
    else true
  ⟨redirects, renders⟩

/-- C1: for every path outside the public allow-list, a mounted
unauthenticated session makes the route guard push exactly one
redirect, to `/login`, and render none of its children. -/
theorem routeGuard_redirects_unauthenticated (path : String)
    (h : path ∉ publicRoutes) :
    routeGuard true false path = ⟨["/login"], false⟩ := by
  have hc : publicRoutes.contains path = false := by
    simpa using h
  simp [routeGuard, hc, h]

/-- Witness for C1 at the concrete protected path `/deshboard`. -/
theorem routeGuard_redirects_unauthenticated_witness :
    "/deshboard" ∉ publicRoutes ∧
      routeGuard true false "/deshboard" = ⟨["/login"], false⟩ :=
  ⟨by decide, routeGuard_redirects_unauthenticated "/deshboard" (by decide)⟩

/-- C3: on `/login` and `/register`, a mounted authenticated session
makes the route guard push exactly one redirect, to `/deshboard`, and
render none of its children. -/
theorem routeGuard_redirects_authenticated_authRoutes (path : String)
    (h : path = "/login" ∨ path = "/register") :
    routeGuard true true path = ⟨["/deshboard"], false⟩ := by
  rcases h with h | h <;> subst h <;> decide

/-- Witness for C3 at the concrete path `/login`. -/
theorem routeGuard_redirects_authenticated_authRoutes_witness :
    routeGuard true true "/login" = ⟨["/deshboard"], false⟩ :=
  routeGuard_redirects_authenticated_authRoutes "/login" (Or.inl rfl)

/-! ### Session context (`src/contexts/AuthContext.tsx`) -/

/-- The session context's state: the `isAuthenticated` and `user`
pieces of React state held by `AuthProvider`. -/
structure AuthState where
  isAuthenticated : Bool
  user : Option User
deriving Repr, DecidableEq

/-- The initial session state: `useState(false)` and
`useState<User | null>(null)`. -/
def initialAuthState : AuthState := ⟨false, none⟩

/-- `JSON.stringify` of a user record, in the field order of the `User`
interface, for field values containing no character that JSON
escapes. -/
def stringifyUser (u : User) : String :=
  "\x7b\"id\":\"" ++ u.id ++ "\",\"email\":\"" ++ u.email ++
    "\",\"username\":\"" ++ u.username ++ "\"\x7d"

/-- Inverse of `stringifyUser` on its image: recognizes exactly the
object shape `stringifyUser` produces. -/
def parseUserObject (s : String) : Option User :=
  if s.startsWith "\x7b\"id\":\"" && s.endsWith "\"\x7d" then
    match ((s.drop 7).dropRight 2).splitOn "\",\"email\":\"" with
    | [idPart, rest] =>
      match rest.splitOn "\",\"username\":\"" with
      | [emailPart, usernamePart] => some ⟨idPart, emailPart, usernamePart⟩
      | _ => none
    | _ => none
  else none

/-- Models the JavaScript builtin `JSON.parse` as applied to the `user`
cookie, restricted to the inputs relevant here: the outer `Option` is
parse success (`none` = `JSON.parse` throws), the inner `Option User`
is the parsed value, where `none` is the JSON value `null` — in
JavaScript `JSON.parse "null"` succeeds and returns `null` — and
`some u` a user object of the exact shape `stringifyUser` produces.
Other inputs are modelled as a parse failure. -/
def jsonParseUser (s : String) : Option (Option User) :=
  if s = "null" then some none
  else
    match parseUserObject s with
    | some u => some (some u)
    | none => none

/-- The mount effect of `AuthProvider` (lines 25-39): read the
`accessToken` and `user` cookies; when both are truthy, `JSON.parse`
the user cookie and on success store the parsed value and set
`isAuthenticated` to `true`; a parse exception is caught and leaves
the state untouched. `parse` stands for the `JSON.parse` builtin. -/
def mountFromCookies (parse : String → Option (Option User))
    (accessToken userCookie : Option String) (st : AuthState) : AuthState :=
  if strTruthy accessToken && strTruthy userCookie then
    match userCookie with
    | some s =>
      match parse s with
      | some userData => { st with user := userData, isAuthenticated := true }
      | none => st
    | none => st
  else st

/-- `setAuth(userData)` (lines 41-44): stores `userData` and sets
`isAuthenticated` to `userData !== null`. -/
def setAuth (userData : Option User) (st : AuthState) : AuthState :=
  { st with user := userData, isAuthenticated := userData.isSome }

/-- `logout()` (lines 46-50): clears the user and the flag; it touches
no cookie. -/
def logoutCtx (st : AuthState) : AuthState :=
  { st with user := none, isAuthenticated := false }

/-- C2: starting from the initial state, the mount effect yields
`isAuthenticated = true` exactly when the `accessToken` cookie is
present and non-empty, the `user` cookie is present and non-empty,
and its `JSON.parse` succeeds; and whenever `JSON.parse` of the user
cookie fails, the session state stays the initial (Anonymous) one. -/
theorem authMount_authenticated_iff
    (parse : String → Option (Option User)) (accessToken userCookie : Option String) :
    ((mountFromCookies parse accessToken userCookie initialAuthState).isAuthenticated = true ↔
      (strTruthy accessToken = true ∧
        ∃ s, userCookie = some s ∧ s ≠ "" ∧ (parse s).isSome = true)) ∧
    (∀ s, userCookie = some s → parse s = none →
      mountFromCookies parse accessToken userCookie initialAuthState = initialAuthState) := by
  constructor
  · constructor
    · intro h
      by_cases ha : strTruthy accessToken = true
      · refine ⟨ha, ?_⟩
        cases userCookie with
        | none =>
          have hb : strTruthy (none : Option String) = false := rfl
          simp [mountFromCookies, hb, initialAuthState] at h
        | some s =>
          by_cases hs : s = ""
          · subst hs
            have hb : strTruthy (some "") = false := rfl
            simp [mountFromCookies, hb, initialAuthState] at h
          · have hb : strTruthy (some s) = true := by simp [strTruthy, hs]
            refine ⟨s, rfl, hs, ?_⟩
            cases hp : parse s with
            | none => simp [mountFromCookies, ha, hb, hp, initialAuthState] at h
            | some v => simp
      · have ha' : strTruthy accessToken = false := by simpa using ha
        simp [mountFromCookies, ha', initialAuthState] at h
    · rintro ⟨ha, s, rfl, hs, hp⟩
      have hb : strTruthy (some s) = true := by simp [strTruthy, hs]
      cases hps : parse s with
      | none => simp [hps] at hp
      | some v => simp [mountFromCookies, ha, hb, hps]
  · intro s hs hp
    subst hs
    by_cases hg : (strTruthy accessToken && strTruthy (some s)) = true
    · simp [mountFromCookies, hg, hp]
    · have hg' : (strTruthy accessToken && strTruthy (some s)) = false := by
        simpa using hg
      simp [mountFromCookies, hg']

/-- Witness for C2: with `JSON.parse` failing on the concrete cookie
pair (`accessToken = "t"`, `user = "x"`), the mount leaves the state
Anonymous, and the authentication equivalence holds there. -/
theorem authMount_authenticated_iff_witness :
    (mountFromCookies (fun _ => none) (some "t") (some "x") initialAuthState =
      initialAuthState) ∧
    ((mountFromCookies (fun _ => none) (some "t") (some "x") initialAuthState).isAuthenticated = true ↔
      (strTruthy (some "t") = true ∧
        ∃ s, (some "x" : Option String) = some s ∧ s ≠ "" ∧
          ((fun _ => (none : Option (Option User))) s).isSome = true)) :=
  ⟨(authMount_authenticated_iff (fun _ => none) (some "t") (some "x")).2 "x" rfl rfl,
    (authMount_authenticated_iff (fun _ => none) (some "t") (some "x")).1⟩

/-! ### Reachable session states (claim about the two-state machine) -/

/-- The operations that mutate the session context: the mount effect
(with the cookie contents it reads), `setAuth`, and `logout`. -/
inductive AuthOp where
  | mount (accessToken userCookie : Option String)
  | setAuthOp (userData : Option User)
  | logoutOp
deriving Repr, DecidableEq

/-- One step of the session context under a given `JSON.parse`
model. -/
def applyAuthOp (parse : String → Option (Option User)) :
    AuthOp → AuthState → AuthState
  | .mount accessToken userCookie, st => mountFromCookies parse accessToken userCookie st
  | .setAuthOp u, st => setAuth u st
  | .logoutOp, st => logoutCtx st

/-- The session state after a sequence of operations from the initial
state. -/
def runAuthOps (parse : String → Option (Option User)) (ops : List AuthOp) : AuthState :=
  ops.foldl (fun st op => applyAuthOp parse op st) initialAuthState

/-- Counterexample to C5: the cookie pair `accessToken = "t"`,
`user = "null"` is read by the mount effect, `JSON.parse "null"`
succeeds with the value `null`, and the code then runs
`setUser(null); setIsAuthenticated(true)`, reaching a state with
`isAuthenticated = true` and `user = null` — so `isAuthenticated` is
not equivalent to `user ≠ null` over all reachable states. -/
theorem authInvariant_counterexample :
    (runAuthOps jsonParseUser [AuthOp.mount (some "t") (some "null")]).isAuthenticated = true ∧
    (runAuthOps jsonParseUser [AuthOp.mount (some "t") (some "null")]).user = none := by
  constructor <;> rfl

/-- C5 (amended): provided `JSON.parse` of the user cookie never
succeeds with the JSON value `null`, every state reachable by any
sequence of mount / `setAuth` / `logout` operations satisfies
`isAuthenticated = true` iff `user ≠ null`. -/
theorem authInvariant_of_no_null_parse
    (parse : String → Option (Option User))
    (hparse : ∀ s, parse s ≠ some none) (ops : List AuthOp) :
    (runAuthOps parse ops).isAuthenticated = true ↔
      (runAuthOps parse ops).user ≠ none := by
  suffices h : ∀ (l : List AuthOp) (st : AuthState),
      (st.isAuthenticated = true ↔ st.user ≠ none) →
      ((l.foldl (fun st op => applyAuthOp parse op st) st).isAuthenticated = true ↔
        (l.foldl (fun st op => applyAuthOp parse op st) st).user ≠ none) by
    exact h ops initialAuthState (by simp [initialAuthState])
  intro l
  induction l with
  | nil => intro st hst; simpa using hst
  | cons op t ih =>
    intro st hst
    refine ih (applyAuthOp parse op st) ?_
    cases op with
    | mount accessToken userCookie =>
      by_cases hg : (strTruthy accessToken && strTruthy userCookie) = true
      · cases userCookie with
        | none => simp [strTruthy] at hg
        | some s =>
          cases hps : parse s with
          | none => simpa [applyAuthOp, mountFromCookies, hg, hps] using hst
          | some v =>
            cases v with
            | none => exact absurd hps (hparse s)
            | some u => simp [applyAuthOp, mountFromCookies, hg, hps]
      · have hg' : (strTruthy accessToken && strTruthy userCookie) = false := by
          simpa using hg
        simpa [applyAuthOp, mountFromCookies, hg'] using hst
    | setAuthOp u => cases u <;> simp [applyAuthOp, setAuth]
    | logoutOp => simp [applyAuthOp, logoutCtx]

/-- Witness for C5 (amended), at a `JSON.parse` model that always
fails and the one-step trace `setAuth(some user)`. -/
theorem authInvariant_of_no_null_parse_witness :
    (runAuthOps (fun _ => none) [AuthOp.setAuthOp (some ⟨"u1", "a@x.com", "alice"⟩)]).isAuthenticated = true ↔
      (runAuthOps (fun _ => none) [AuthOp.setAuthOp (some ⟨"u1", "a@x.com", "alice"⟩)]).user ≠ none :=
  authInvariant_of_no_null_parse (fun _ => none) (fun _ h => by simp at h)
    [AuthOp.setAuthOp (some ⟨"u1", "a@x.com", "alice"⟩)]

/-! ### Cookie-store lemmas -/

/-- `find?` ignores a `filter` whose predicate is implied by the one
searched for. -/
theorem find_filter_of_imp {α : Type} (p q : α → Bool) (l : List α)
    (h : ∀ x, p x = true → q x = true) :
    (l.filter q).find? p = l.find? p := by
  induction l with
  | nil => rfl
  | cons a t ih =>
    by_cases hq : q a = true
    · by_cases hp : p a = true
      · simp [List.filter_cons, hq, List.find?_cons, hp]
      · have hp' : p a = false := by simpa using hp
        simp [List.filter_cons, hq, List.find?_cons, hp', ih]
    · have hq' : q a = false := by simpa using hq
      have hp' : p a = false := by
        cases hpa : p a with
        | false => rfl
        | true => exact absurd (h a hpa) (by simp [hq'])
      simp [List.filter_cons, hq', List.find?_cons, hp', ih]

/-- Deleting a cookie removes it from the store. -/
theorem getCookie_deleteCookie_self (n : String) (c : CookieStore) :
    getCookie n (deleteCookie n c) = none := by
  have h : (c.filter (fun e => e.1 != n)).find? (fun e => e.1 == n) = none := by
    rw [List.find?_eq_none]
    intro x hx
    have hx' := List.of_mem_filter hx
    simp only [bne_iff_ne, ne_eq] at hx'
    simp [hx']
  simp [getCookie, getCookieEntry, deleteCookie, h]

/-- Deleting one cookie leaves every other cookie's value unchanged. -/
theorem getCookie_deleteCookie_other (m n : String) (c : CookieStore)
    (h : m ≠ n) :
    getCookie m (deleteCookie n c) = getCookie m c := by
  unfold getCookie getCookieEntry deleteCookie
  rw [find_filter_of_imp]
  intro x hx
  have hx' : x.1 = m := by simpa using hx
  simp [hx', bne_iff_ne, h]

/-- A freshly set cookie is looked up with its value and ttl. -/
theorem getCookieEntry_setCookie_self (n v : String) (d : Nat) (c : CookieStore) :
    getCookieEntry n (setCookie n v d c) = some (v, d) := by
  simp [getCookieEntry, setCookie, List.find?_cons]

/-- Setting one cookie leaves every other cookie's entry unchanged. -/
theorem getCookieEntry_setCookie_other (m n v : String) (d : Nat) (c : CookieStore)
    (h : m ≠ n) :
    getCookieEntry m (setCookie n v d c) = getCookieEntry m c := by
  unfold getCookieEntry setCookie
  have hn : ((n, v, d).1 == m) = false := by
    simp [Ne.symm h]
  rw [List.find?_cons, hn, find_filter_of_imp]
  intro x hx
  have hx' : x.1 = m := by simpa using hx
  simp [hx', bne_iff_ne, h]

/-! ### Header (`src/components/Header.tsx`): logout handling -/

/-- The client-visible state the header's logout path touches: the
cookie store, the session context, and the navigations pushed. -/
structure HeaderAppState where
  cookies : CookieStore
  auth : AuthState
  navigations : List String
deriving Repr, DecidableEq

/-- The context's `logout()` lifted to the full client state: it runs
`setUser(null); setIsAuthenticated(false)` and performs no cookie
operation, so the cookie store is carried through untouched. -/
def logoutAction (st : HeaderAppState) : HeaderAppState :=
  { st with auth := logoutCtx st.auth }

/-- `handleLogout` (`Header.tsx` lines 68-75): deletes the
`accessToken`, `refreshToken` and `user` cookies, calls `logout()`,
and pushes `/login`. -/
def handleLogout (st : HeaderAppState) : HeaderAppState :=
  { cookies :=
      deleteCookie "user" (deleteCookie "refreshToken"
        (deleteCookie "accessToken" st.cookies)),
    auth := logoutCtx st.auth,
    navigations := st.navigations ++ ["/login"] }

/-- C6: `logout()` moves the session to Anonymous and leaves the
cookie store exactly as it was; the deletion of the three cookies
happens only in the header's `handleLogout` caller, after which none
of them is present. -/
theorem logout_frame_and_handler_deletes (st : HeaderAppState) :
    (logoutAction st).cookies = st.cookies ∧
    (logoutAction st).auth = ⟨false, none⟩ ∧
    (handleLogout st).auth = ⟨false, none⟩ ∧
    getCookie "accessToken" (handleLogout st).cookies = none ∧
    getCookie "refreshToken" (handleLogout st).cookies = none ∧
    getCookie "user" (handleLogout st).cookies = none := by
  refine ⟨rfl, rfl, rfl, ?_, ?_, ?_⟩
  · rw [handleLogout]
    rw [getCookie_deleteCookie_other _ _ _ (by decide),
      getCookie_deleteCookie_other _ _ _ (by decide),
      getCookie_deleteCookie_self]
  · rw [handleLogout]
    rw [getCookie_deleteCookie_other _ _ _ (by decide),
      getCookie_deleteCookie_self]
  · rw [handleLogout]
    rw [getCookie_deleteCookie_self]

/-! ### Login page (`src/contexts/AuthContext.tsx` companion file,
`Login.handleSubmit`) -/

/-- The `data` object of a login response body:
`{ user, accessToken, refreshToken }`. -/
structure LoginData where
  user : Option User
  accessToken : Option String
  refreshToken : Option String
deriving Repr, DecidableEq

/-- A parsed login response body: `{ message, data }`. -/
structure LoginBody where
  message : Option String
  data : Option LoginData
deriving Repr, DecidableEq

/-- The parts of a fetch `Response` the login handler reads: status,
`content-type` header, parsed JSON body, and the raw text used in the
non-JSON error message. -/
structure LoginHttpResponse where
  status : Nat
  contentType : Option String
  body : LoginBody
  rawText : String
deriving Repr, DecidableEq

/-- `Response.ok` per the Fetch specification: status in 200..299. -/
def respOk (status : Nat) : Bool :=
  200 ≤ status && status ≤ 299

/-- The login handler's content-type check:
`!contentType || !contentType.includes('application/json')`, negated. -/
def jsCtIsJson : Option String → Bool
  | none => false
  | some c => jsIncludes c "application/json"

/-- `if (x) setCookie(name, x, days)` for a nullable string `x`:
the cookie is written only when `x` is truthy. -/
def condSetCookie (name : String) (v : Option String) (days : Nat)
    (c : CookieStore) : CookieStore :=
  match v with
  | some s => if s = "" then c else setCookie name s days c
  | none => c

/-- The login page's local state plus the client-visible effects it
drives: cookies, the session context, and navigations. -/
structure LoginState where
  cookies : CookieStore
  auth : AuthState
  error : String
  success : String
  loading : Bool
  navigations : List String
deriving Repr, DecidableEq

/-- The configuration error message thrown when the backend URL is
not set. -/
def cfgErrMsg : String :=
  "API backend URL is not configured. Please set NEXT_PUBLIC_API_BACKEND_URL in your .env file"

/-- `Login.handleSubmit` (lines 89-167): clears messages, checks the
configured backend URL, checks the response content type, parses the
body, rejects non-2xx responses with the body's message, and on a
body with `data` conditionally writes the `accessToken` (7 days),
`refreshToken` (30 days) and serialized `user` (7 days) cookies,
updates the session context via `setAuth`, sets the success message
and schedules the `/deshboard` navigation; `finally` clears the
loading flag. Thrown errors become the `error` message. -/
def loginHandleSubmit (apiUrl : Option String) (resp : LoginHttpResponse)
    (st : LoginState) : LoginState :=
  let st0 := { st with error := "", success := "", loading := true }
  let st1 :=
    if strTruthy apiUrl = false then { st0 with error := cfgErrMsg }
    else
      let apiEndpoint := jsInterp apiUrl ++ "/api/login"
      if jsCtIsJson resp.contentType = false then
        { st0 with error :=
            "API returned non-JSON response (Status: " ++ toString resp.status ++
              "). URL: " ++ apiEndpoint ++ ". Response: " ++ resp.rawText.take 200 }
      else if respOk resp.status = false then
        { st0 with error := jsOrStr resp.body.message "Login failed" }
      else
        let st2 :=
          match resp.body.data with
          | none => st0
          | some d =>
            let cookies1 := condSetCookie "accessToken" d.accessToken 7 st0.cookies
            let cookies2 := condSetCookie "refreshToken" d.refreshToken 30 cookies1
            match d.user with
            | some u =>
              { st0 with
                cookies := setCookie "user" (stringifyUser u) 7 cookies2,
                auth := setAuth (some u) st0.auth }
            | none => { st0 with cookies := cookies2 }
        { st2 with
          success := "Login successful! Redirecting...",
          navigations := st2.navigations ++ ["/deshboard"] }
  { st1 with loading := false }

/-- The user of the C4 scenario. -/
def aliceUser : User := ⟨"u1", "a@x.com", "alice"⟩

/-- The C4 login response: JSON content type, 2xx status, and body
`{data: {user: aliceUser, accessToken: "t1", refreshToken: "t2"}}`. -/
def c4Response : LoginHttpResponse :=
  { status := 200,
    contentType := some "application/json",
    body := { message := some "Login successful",
              data := some { user := some aliceUser,
                             accessToken := some "t1",
                             refreshToken := some "t2" } },
    rawText := "" }

/-- C4: from any prior page state, submitting against the mocked
successful login response stores `accessToken = t1` for 7 days,
`refreshToken = t2` for 30 days, and the serialized user — a string
containing "alice" — for 7 days, and moves the session context to
Authenticated with username "alice". -/
theorem login_success_sets_cookies_and_auth (st : LoginState) :
    getCookieEntry "accessToken"
        (loginHandleSubmit (some "http://localhost:4000") c4Response st).cookies =
      some ("t1", 7) ∧
    getCookieEntry "refreshToken"
        (loginHandleSubmit (some "http://localhost:4000") c4Response st).cookies =
      some ("t2", 30) ∧
    getCookieEntry "user"
        (loginHandleSubmit (some "http://localhost:4000") c4Response st).cookies =
      some (stringifyUser aliceUser, 7) ∧
    (∃ p q, stringifyUser aliceUser = p ++ "alice" ++ q) ∧
    (loginHandleSubmit (some "http://localhost:4000") c4Response st).auth =
      ⟨true, some aliceUser⟩ ∧
    aliceUser.username = "alice" := by
  have hcook :
      (loginHandleSubmit (some "http://localhost:4000") c4Response st).cookies =
        setCookie "user" (stringifyUser aliceUser) 7
          (setCookie "refreshToken" "t2" 30
            (setCookie "accessToken" "t1" 7 st.cookies)) := rfl
  refine ⟨?_, ?_, ?_, ?_, rfl, rfl⟩
  · rw [hcook,
      getCookieEntry_setCookie_other _ _ _ _ _ (by decide),
      getCookieEntry_setCookie_other _ _ _ _ _ (by decide),
      getCookieEntry_setCookie_self]
  · rw [hcook,
      getCookieEntry_setCookie_other _ _ _ _ _ (by decide),
      getCookieEntry_setCookie_self]
  · rw [hcook, getCookieEntry_setCookie_self]
  · exact ⟨"\x7b\"id\":\"u1\",\"email\":\"a@x.com\",\"username\":\"", "\"\x7d", rfl⟩

/-! ### Authenticated request headers

Each of the four call sites defines its own textually identical
`getAuthHeaders`; each is embedded separately. -/

/-- The token each `getAuthHeaders` picks:
`getCookie('accessToken') || getCookie('refreshToken')`. -/
def authHeadersOf (c : CookieStore) : List (String × String) :=
  [("Authorization",
      "Bearer " ++ jsInterp (jsOrOpt (getCookie "accessToken" c) (getCookie "refreshToken" c))),
   ("Content-Type", "application/json")]

/-- `getAuthHeaders` of the dashboard page
(`src/app/deshboard/page.tsx` lines 53-59). -/
def deshboardGetAuthHeaders (c : CookieStore) : List (String × String) :=
  authHeadersOf c

/-- `getAuthHeaders` of the community/exam page
(`src/app/community/page.tsx` lines 65-71). -/
def communityGetAuthHeaders (c : CookieStore) : List (String × String) :=
  authHeadersOf c

/-- `getAuthHeaders` of the results page
(`src/app/result/page.tsx` lines 49-55). -/
def resultGetAuthHeaders (c : CookieStore) : List (String × String) :=
  authHeadersOf c

/-- `getAuthHeaders` of the chat panel
(`src/components/ChatBox.tsx` lines 63-69). -/
def chatBoxGetAuthHeaders (c : CookieStore) : List (String × String) :=
  authHeadersOf c

/-! ### Exam-taking page (`src/app/community/page.tsx`) -/

/-- An exam question (interface `Question`). -/
structure Question where
  id : String
  exam_id : String
  question_text : String
  created_by_ai : Bool
deriving Repr, DecidableEq

/-- An exam (interface `Exam`). -/
structure Exam where
  id : String
  exam_type : String
  taken_at : String
  user_id : String
  questions : List Question
  ai_generated : Bool
deriving Repr, DecidableEq

/-- The nested `exam` object of a user exam. -/
structure ExamSummary where
  id : String
  exam_type : String
  questions : List Question
deriving Repr, DecidableEq

/-- One exam attempt (interface `UserExam`). -/
structure UserExam where
  id : String
  exam_id : String
  user_id : String
  started_at : String
  completed_at : Option String
  exam : ExamSummary
deriving Repr, DecidableEq

/-- The community page's React state, plus the navigations pushed. -/
structure CommunityState where
  exam : Option Exam
  userExam : Option UserExam
  userExamId : Option String
  answers : List (String × String)
  submitting : List (String × Bool)
  loading : Bool
  creating : Bool
  starting : Bool
  completing : Bool
  error : String
  success : String
  navigations : List String
deriving Repr, DecidableEq

/-- The community page's initial state (its `useState` initializers:
`creating` starts `true`, everything else empty or `false`). -/
def initialCommunityState : CommunityState :=
  { exam := none, userExam := none, userExamId := none, answers := [],
    submitting := [], loading := false, creating := true, starting := false,
    completing := false, error := "", success := "", navigations := [] }

/-- A network request issued via `fetch`, with its JSON body as
key-value pairs. -/
structure ApiRequest where
  url : String
  method : String
  headers : List (String × String)
  body : List (String × String)
deriving Repr, DecidableEq

/-- The parts of an exam-API response these handlers read. -/
structure ExamApiResponse where
  ok : Bool
  message : Option String
deriving Repr, DecidableEq

/-- JavaScript's `String.prototype.trim` restricted to ASCII
whitespace. -/
def isJsWhitespace (c : Char) : Bool :=
  c = ' ' || c = '\t' || c = '\n' || c = '\r'

/-- `s.trim()`: strips leading and trailing whitespace. -/
def jsTrim (s : String) : String :=
  ⟨((s.data.dropWhile isJsWhitespace).reverse.dropWhile isJsWhitespace).reverse⟩

/-- Functional update of a `Record<string, boolean>` React state:
`prev => ({ ...prev, [key]: v })`. -/
def setRecordFlag (key : String) (v : Bool) (m : List (String × Bool)) :
    List (String × Bool) :=
  (key, v) :: m.filter (fun e => e.1 != key)

/-- `submitAnswer` (lines 155-192): guard
`if (!userExamId || !answerText.trim())` sets the validation message
and returns without any request; otherwise it marks the question as
submitting, clears messages, requires the configured backend URL,
issues the POST, and reports the outcome; `finally` clears the
question's submitting flag. Returns the new state and the requests
issued. -/
def submitAnswer (cookies : CookieStore) (apiUrl : Option String)
    (resp : ExamApiResponse) (questionId answerText : String)
    (st : CommunityState) : CommunityState × List ApiRequest :=
  if strTruthy st.userExamId = false ∨ jsTrim answerText = "" then
    ({ st with error := "Please enter an answer before submitting" }, [])
  else
    let st0 := { st with
      submitting := setRecordFlag questionId true st.submitting,
      error := "", success := "" }
    if strTruthy apiUrl = false then
      ({ st0 with submitting := setRecordFlag questionId false st0.submitting }, [])
    else
      let req : ApiRequest :=
        { url := jsInterp apiUrl ++ "/api/exams/submit-answer",
          method := "POST",
          headers := communityGetAuthHeaders cookies,
          body := [("user_exam_id", jsInterp st.userExamId),
                   ("question_id", questionId),
                   ("answer_text", jsTrim answerText)] }
      let st1 :=
        if resp.ok = false then
          { st0 with error := jsOrStr resp.message "Failed to submit answer" }
        else
          { st0 with success := "Answer submitted successfully!" }
      ({ st1 with submitting := setRecordFlag questionId false st1.submitting }, [req])

/-- `completeExam` (lines 194-230): guard `if (!userExamId)` sets
"No active exam found" and returns without any request; otherwise it
sets `completing`, clears the error, requires the configured backend
URL, issues the POST, and reports the outcome (scheduling the
`/deshboard` navigation on success); `finally` clears `completing`. -/
def completeExam (cookies : CookieStore) (apiUrl : Option String)
    (resp : ExamApiResponse) (st : CommunityState) :
    CommunityState × List ApiRequest :=
  if strTruthy st.userExamId = false then
    ({ st with error := "No active exam found" }, [])
  else
    let st0 := { st with completing := true, error := "" }
    if strTruthy apiUrl = false then
      ({ st0 with completing := false }, [])
    else
      let req : ApiRequest :=
        { url := jsInterp apiUrl ++ "/api/exams/complete",
          method := "POST",
          headers := communityGetAuthHeaders cookies,
          body := [("user_exam_id", jsInterp st.userExamId)] }
      let st1 :=
        if resp.ok = false then
          { st0 with error := jsOrStr resp.message "Failed to complete exam" }
        else
          { st0 with success := "Exam completed successfully!",
                     navigations := st0.navigations ++ ["/deshboard"] }
      ({ st1 with completing := false }, [req])

/-- C7: with a whitespace-only (or empty) answer text, or with no
user-exam id set, `submitAnswer` issues no request and only sets the
validation message. -/
theorem submitAnswer_guard_no_request (cookies : CookieStore)
    (apiUrl : Option String) (resp : ExamApiResponse)
    (questionId answerText : String) (st : CommunityState)
    (h : jsTrim answerText = "" ∨ st.userExamId = none) :
    submitAnswer cookies apiUrl resp questionId answerText st =
      ({ st with error := "Please enter an answer before submitting" }, []) := by
  have hc : strTruthy st.userExamId = false ∨ jsTrim answerText = "" := by
    rcases h with h | h
    · exact Or.inr h
    · exact Or.inl (by rw [h]; rfl)
  unfold submitAnswer
  rw [if_pos hc]

/-- Witness for C7 at the whitespace-only answer "   " with an active
user-exam id. -/
theorem submitAnswer_guard_no_request_witness :
    jsTrim "   " = "" ∧
      submitAnswer [] none ⟨true, none⟩ "q1" "   "
          { initialCommunityState with userExamId := some "ue1" } =
        ({ { initialCommunityState with userExamId := some "ue1" } with
            error := "Please enter an answer before submitting" }, []) :=
  ⟨by decide,
    submitAnswer_guard_no_request [] none ⟨true, none⟩ "q1" "   "
      { initialCommunityState with userExamId := some "ue1" } (Or.inl (by decide))⟩

/-- C8: with no user-exam id, `completeExam` issues no request and
changes nothing but the error message. -/
theorem completeExam_guard_no_request (cookies : CookieStore)
    (apiUrl : Option String) (resp : ExamApiResponse) (st : CommunityState)
    (h : st.userExamId = none) :
    completeExam cookies apiUrl resp st =
      ({ st with error := "No active exam found" }, []) := by
  have hc : strTruthy st.userExamId = false := by rw [h]; rfl
  unfold completeExam
  rw [if_pos hc]

/-- Witness for C8 at the initial community state (no user-exam id). -/
theorem completeExam_guard_no_request_witness :
    initialCommunityState.userExamId = none ∧
      completeExam [] none ⟨true, none⟩ initialCommunityState =
        ({ initialCommunityState with error := "No active exam found" }, []) :=
  ⟨rfl, completeExam_guard_no_request [] none ⟨true, none⟩ initialCommunityState rfl⟩

/-- C10: every page's `getAuthHeaders` prefers the `accessToken`
cookie: when it is present and non-empty, the bearer value is its
value, regardless of the `refreshToken` cookie; when it is absent,
the bearer value is the `refreshToken` cookie's value. -/
theorem getAuthHeaders_token_preference (c : CookieStore) (v : String) :
    ((getCookie "accessToken" c = some v ∧ v ≠ "") →
      (deshboardGetAuthHeaders c =
          [("Authorization", "Bearer " ++ v), ("Content-Type", "application/json")] ∧
        communityGetAuthHeaders c =
          [("Authorization", "Bearer " ++ v), ("Content-Type", "application/json")] ∧
        resultGetAuthHeaders c =
          [("Authorization", "Bearer " ++ v), ("Content-Type", "application/json")] ∧
        chatBoxGetAuthHeaders c =
          [("Authorization", "Bearer " ++ v), ("Content-Type", "application/json")])) ∧
    ((getCookie "accessToken" c = none ∧ getCookie "refreshToken" c = some v) →
      (deshboardGetAuthHeaders c =
          [("Authorization", "Bearer " ++ v), ("Content-Type", "application/json")] ∧
        communityGetAuthHeaders c =
          [("Authorization", "Bearer " ++ v), ("Content-Type", "application/json")] ∧
        resultGetAuthHeaders c =
          [("Authorization", "Bearer " ++ v), ("Content-Type", "application/json")] ∧
        chatBoxGetAuthHeaders c =
          [("Authorization", "Bearer " ++ v), ("Content-Type", "application/json")])) := by
  constructor
  · rintro ⟨ha, hv⟩
    have htok :
        jsOrOpt (getCookie "accessToken" c) (getCookie "refreshToken" c) = some v := by
      rw [ha]; simp [jsOrOpt, strTruthy, hv]
    refine ⟨?_, ?_, ?_, ?_⟩ <;>
      simp [deshboardGetAuthHeaders, communityGetAuthHeaders, resultGetAuthHeaders,
        chatBoxGetAuthHeaders, authHeadersOf, htok, jsInterp]
  · rintro ⟨ha, hr⟩
    have htok :
        jsOrOpt (getCookie "accessToken" c) (getCookie "refreshToken" c) = some v := by
      rw [ha, hr]; rfl
    refine ⟨?_, ?_, ?_, ?_⟩ <;>
      simp [deshboardGetAuthHeaders, communityGetAuthHeaders, resultGetAuthHeaders,
        chatBoxGetAuthHeaders, authHeadersOf, htok, jsInterp]

/-- Witness for C10 at the store holding only `accessToken = "tok"`. -/
theorem getAuthHeaders_token_preference_witness :
    (getCookie "accessToken" [("accessToken", "tok", 7)] = some "tok" ∧ "tok" ≠ "") ∧
      (deshboardGetAuthHeaders [("accessToken", "tok", 7)] =
          [("Authorization", "Bearer tok"), ("Content-Type", "application/json")] ∧
        communityGetAuthHeaders [("accessToken", "tok", 7)] =
          [("Authorization", "Bearer tok"), ("Content-Type", "application/json")] ∧
        resultGetAuthHeaders [("accessToken", "tok", 7)] =
          [("Authorization", "Bearer tok"), ("Content-Type", "application/json")] ∧
        chatBoxGetAuthHeaders [("accessToken", "tok", 7)] =
          [("Authorization", "Bearer tok"), ("Content-Type", "application/json")]) :=
  ⟨⟨rfl, by decide⟩,
    (getAuthHeaders_token_preference [("accessToken", "tok", 7)] "tok").1
      ⟨rfl, by decide⟩⟩

/-! ### Polling timers (`src/components/ChatBox.tsx` and
`src/components/Header.tsx`) -/

/-- The browser's interval timers: a fresh-id counter and the active
intervals as (id, period in ms, callback). -/
structure TimerState where
  nextId : Nat
  active : List (Nat × Nat × String)
deriving Repr, DecidableEq

/-- `setInterval(callback, periodMs)`: registers a new interval and
returns its id. -/
def setIntervalOp (callback : String) (periodMs : Nat) (ts : TimerState) :
    TimerState × Nat :=
  (⟨ts.nextId + 1, (ts.nextId, periodMs, callback) :: ts.active⟩, ts.nextId)

/-- `clearInterval(id)`: deactivates the interval with that id. -/
def clearIntervalOp (id : Nat) (ts : TimerState) : TimerState :=
  { ts with active := ts.active.filter (fun e => e.1 != id) }

/-- What one run of a polling effect did: the calls made immediately
and the id of the interval it registered, if any. -/
structure EffectSetup where
  immediateCalls : List String
  timer : Option Nat
deriving Repr, DecidableEq

/-- The chat panel's polling effect (`ChatBox.tsx` lines 42-53): when
the panel is open and a receiver id is set, fetch and mark-as-read
immediately and register a 3000 ms `fetchMessages` interval; the
effect's cleanup clears that interval. -/
def chatBoxEffect (isOpen : Bool) (receiverId : String) (ts : TimerState) :
    TimerState × EffectSetup :=
  if isOpen && receiverId != "" then
    let r := setIntervalOp "fetchMessages" 3000 ts
    (r.1, ⟨["fetchMessages", "markAsRead"], some r.2⟩)
  else (ts, ⟨[], none⟩)

/-- The header's notification polling effect (`Header.tsx` lines
20-58): when authenticated and mounted, check immediately and register
a 5000 ms `checkNotifications` interval; the effect's cleanup clears
that interval. -/
def headerNotificationEffect (isAuthenticated mounted : Bool) (ts : TimerState) :
    TimerState × EffectSetup :=
  if !isAuthenticated || !mounted then (ts, ⟨[], none⟩)
  else
    let r := setIntervalOp "checkNotifications" 5000 ts
    (r.1, ⟨["checkNotifications"], some r.2⟩)

/-- The cleanup function returned by a polling effect: clears the
interval the run registered, if any. -/
def effectCleanup (setup : EffectSetup) (ts : TimerState) : TimerState :=
  match setup.timer with
  | some id => clearIntervalOp id ts
  | none => ts

/-- After `clearInterval(id)`, no interval with that id is active. -/
theorem clearIntervalOp_not_active (id : Nat) (ts : TimerState) :
    ∀ e ∈ (clearIntervalOp id ts).active, e.1 ≠ id := by
  intro e he
  have h := List.of_mem_filter he
  simpa [bne_iff_ne] using h

/-- C9: an open chat panel's effect registers exactly a 3000 ms
`fetchMessages` interval and its cleanup (run on panel close or
teardown) deactivates it, while a closed panel registers nothing; the
header's effect while authenticated and mounted registers exactly a
5000 ms `checkNotifications` interval and its cleanup (run on
sign-out or teardown) deactivates it, while a signed-out or unmounted
header registers nothing. -/
theorem polling_intervals_setup_and_cleanup (receiverId : String)
    (ts : TimerState) (hrid : receiverId ≠ "") :
    ((chatBoxEffect true receiverId ts).2.timer = some ts.nextId ∧
      (ts.nextId, 3000, "fetchMessages") ∈ (chatBoxEffect true receiverId ts).1.active ∧
      (∀ e ∈ (effectCleanup (chatBoxEffect true receiverId ts).2
          (chatBoxEffect true receiverId ts).1).active, e.1 ≠ ts.nextId) ∧
      chatBoxEffect false receiverId ts = (ts, ⟨[], none⟩)) ∧
    ((headerNotificationEffect true true ts).2.timer = some ts.nextId ∧
      (ts.nextId, 5000, "checkNotifications") ∈
        (headerNotificationEffect true true ts).1.active ∧
      (∀ e ∈ (effectCleanup (headerNotificationEffect true true ts).2
          (headerNotificationEffect true true ts).1).active, e.1 ≠ ts.nextId) ∧
      headerNotificationEffect false true ts = (ts, ⟨[], none⟩) ∧
      headerNotificationEffect true false ts = (ts, ⟨[], none⟩)) := by
  have hb : (receiverId != "") = true := by simpa [bne_iff_ne] using hrid
  have hcb : chatBoxEffect true receiverId ts =
      (⟨ts.nextId + 1, (ts.nextId, 3000, "fetchMessages") :: ts.active⟩,
        ⟨["fetchMessages", "markAsRead"], some ts.nextId⟩) := by
    simp [chatBoxEffect, setIntervalOp, hb]
  have hhd : headerNotificationEffect true true ts =
      (⟨ts.nextId + 1, (ts.nextId, 5000, "checkNotifications") :: ts.active⟩,
        ⟨["checkNotifications"], some ts.nextId⟩) := by
    simp [headerNotificationEffect, setIntervalOp]
  refine ⟨⟨?_, ?_, ?_, ?_⟩, ⟨?_, ?_, ?_, ?_, ?_⟩⟩
  · rw [hcb]
  · rw [hcb]; exact List.mem_cons_self _ _
  · rw [hcb]; exact clearIntervalOp_not_active ts.nextId _
  · simp [chatBoxEffect]
  · rw [hhd]
  · rw [hhd]; exact List.mem_cons_self _ _
  · rw [hhd]; exact clearIntervalOp_not_active ts.nextId _
  · simp [headerNotificationEffect]
  · simp [headerNotificationEffect]

/-- Witness for C9 at the receiver `"u2"` and the empty timer
state. -/
theorem polling_intervals_setup_and_cleanup_witness :
    ("u2" : String) ≠ "" ∧
      ((chatBoxEffect true "u2" ⟨0, []⟩).2.timer = some (0 : Nat) ∧
        ((0 : Nat), 3000, "fetchMessages") ∈ (chatBoxEffect true "u2" ⟨0, []⟩).1.active ∧
        (∀ e ∈ (effectCleanup (chatBoxEffect true "u2" ⟨0, []⟩).2
            (chatBoxEffect true "u2" ⟨0, []⟩).1).active, e.1 ≠ (0 : Nat)) ∧
        chatBoxEffect false "u2" ⟨0, []⟩ = (⟨0, []⟩, ⟨[], none⟩)) ∧
      ((headerNotificationEffect true true ⟨0, []⟩).2.timer = some (0 : Nat) ∧
        ((0 : Nat), 5000, "checkNotifications") ∈
          (headerNotificationEffect true true ⟨0, []⟩).1.active ∧
        (∀ e ∈ (effectCleanup (headerNotificationEffect true true ⟨0, []⟩).2
            (headerNotificationEffect true true ⟨0, []⟩).1).active, e.1 ≠ (0 : Nat)) ∧
        headerNotificationEffect false true ⟨0, []⟩ = (⟨0, []⟩, ⟨[], none⟩) ∧
        headerNotificationEffect true false ⟨0, []⟩ = (⟨0, []⟩, ⟨[], none⟩)) :=
  ⟨by decide, polling_intervals_setup_and_cleanup "u2" ⟨0, []⟩ (by decide)⟩

end IeltsClient
